import Mathlib

/-!
Formal model of the stalwart-smtp-server outbound delivery engine.

The definitions below are a shallow embedding of the Rust sources
`src/queue/delivery.rs`, `src/config/server.rs` and `src/listener/rcpt.rs`.
Instants and durations are modelled as natural numbers, string formatting of
diagnostic messages is approximated (only the error kinds matter to the
properties proved here), and asynchronous interactions with the network,
resolver and limiters are modelled as explicit oracle inputs.  Types whose
definitions live outside the three embedded files (the queue `Error` enum,
`Message::next_event`, `Domain::set_throttle_error`, session address equality)
are modelled from the specification and carry a doc comment saying so.
-/

set_option maxRecDepth 4000

namespace StalwartSmtp

/-- An SMTP reply, as captured by the external mail-send / smtp-proto crates:
    a three digit code plus text. -/
structure Reply where
  code : Nat
  message : String
  deriving DecidableEq, Repr

/-- Reply severity from the smtp-proto crate: the first digit of the code. -/
inductive Severity where
  | PositiveCompletion
  | PositiveIntermediate
  | TransientNegativeCompletion
  | PermanentNegativeCompletion
  | Invalid
  deriving DecidableEq, Repr

/-- Severity of a reply, determined by code / 100 (smtp-proto Response::severity). -/
def Reply.severity (r : Reply) : Severity :=
  if r.code / 100 = 2 then .PositiveCompletion
  else if r.code / 100 = 3 then .PositiveIntermediate
  else if r.code / 100 = 4 then .TransientNegativeCompletion
  else if r.code / 100 = 5 then .PermanentNegativeCompletion
  else .Invalid

/-- Modelled from the spec (section 7): the queue `Error` enum lives in
    queue/mod.rs, which is not under src/.  The From impls embedded below
    construct only the DNSError, ConnectionError and UnexpectedResponse
    variants; TlsRequiredUnavailable is listed by the spec as a synthetic
    error kind. -/
inductive Error where
  | DNSError (message : String)
  | ConnectionError (message : String)
  | UnexpectedResponse (message : String) (response : Reply)
  | TlsRequiredUnavailable (response : Reply)
  deriving DecidableEq, Repr

/-- Per-domain delivery status (queue Status enum, as used by delivery.rs). -/
inductive Status where
  | Scheduled
  | Completed
  | TemporaryFailure (err : Error)
  | PermanentFailure (err : Error)
  deriving DecidableEq, Repr

/-- A status is terminal when the domain will never be retried
    (spec invariant I5). -/
def Status.is_terminal : Status → Bool
  | .Completed => true
  | .PermanentFailure _ => true
  | .Scheduled => false
  | .TemporaryFailure _ => false

/-- Approximation of Rust debug formatting of a string (the exact text of
    diagnostic messages is irrelevant to every property proved here). -/
def rustQuote (s : String) : String := "\"" ++ s ++ "\""

/-- Errors surfaced by the external mail-send SMTP client crate. -/
inductive MailSendError where
  | Io (message : String)
  | Base64 (message : String)
  | UnparseableReply
  | AuthenticationFailed (response : Reply)
  | MissingCredentials
  | MissingMailFrom
  | MissingRcptTo
  | Timeout
  | UnexpectedReply (response : Reply)
  | Auth (message : String)
  | UnsupportedAuthMechanism
  | InvalidTLSName
  | MissingStartTls
  deriving DecidableEq, Repr

/-- Display text of a mail-send error (Rust Display impl, abbreviated: only
    the error kind matters to the properties proved here). -/
def MailSendError.display : MailSendError → String
  | .Io m => "I/O error: " ++ m
  | .Base64 m => "Base64 error: " ++ m
  | .UnparseableReply => "Unparseable reply"
  | .AuthenticationFailed r => "Authentication failed: " ++ r.message
  | .MissingCredentials => "Missing credentials"
  | .MissingMailFrom => "Missing MAIL FROM"
  | .MissingRcptTo => "Missing RCPT TO"
  | .Timeout => "Timeout"
  | .UnexpectedReply r => "Unexpected reply: " ++ r.message
  | .Auth m => "Auth error: " ++ m
  | .UnsupportedAuthMechanism => "Unsupported auth mechanism"
  | .InvalidTLSName => "Invalid TLS name"
  | .MissingStartTls => "STARTTLS not advertised"

/-- Embedding of `impl From<(&str, &str, mail_send::Error)> for Status`
    (delivery.rs lines 462-499).  The first component is the message
    prelude, the second the hostname. -/
def Status.from_send_error (what hostname : String) : MailSendError → Status
  | .Io m =>
      .TemporaryFailure (.ConnectionError
        (what ++ " " ++ rustQuote hostname ++ ": " ++ MailSendError.display (.Io m)))
  | .Base64 m =>
      .TemporaryFailure (.ConnectionError
        (what ++ " " ++ rustQuote hostname ++ ": " ++ MailSendError.display (.Base64 m)))
  | .UnparseableReply =>
      .TemporaryFailure (.ConnectionError
        (what ++ " " ++ rustQuote hostname ++ ": " ++ MailSendError.display .UnparseableReply))
  | .AuthenticationFailed r =>
      .TemporaryFailure (.ConnectionError
        (what ++ " " ++ rustQuote hostname ++ ": "
          ++ MailSendError.display (.AuthenticationFailed r)))
  | .MissingCredentials =>
      .TemporaryFailure (.ConnectionError
        (what ++ " " ++ rustQuote hostname ++ ": " ++ MailSendError.display .MissingCredentials))
  | .MissingMailFrom =>
      .TemporaryFailure (.ConnectionError
        (what ++ " " ++ rustQuote hostname ++ ": " ++ MailSendError.display .MissingMailFrom))
  | .MissingRcptTo =>
      .TemporaryFailure (.ConnectionError
        (what ++ " " ++ rustQuote hostname ++ ": " ++ MailSendError.display .MissingRcptTo))
  | .Timeout =>
      .TemporaryFailure (.ConnectionError
        (what ++ " " ++ rustQuote hostname ++ ": " ++ MailSendError.display .Timeout))
  | .UnexpectedReply reply =>
      if reply.severity = .PermanentNegativeCompletion then
        .PermanentFailure (.UnexpectedResponse (what ++ " " ++ rustQuote hostname) reply)
      else
        .TemporaryFailure (.UnexpectedResponse (what ++ " " ++ rustQuote hostname) reply)
  | .Auth m =>
      .TemporaryFailure (.ConnectionError
        (what ++ " " ++ rustQuote hostname ++ ": " ++ MailSendError.display (.Auth m)))
  | .UnsupportedAuthMechanism =>
      .TemporaryFailure (.ConnectionError
        (what ++ " " ++ rustQuote hostname ++ ": "
          ++ MailSendError.display .UnsupportedAuthMechanism))
  | .InvalidTLSName =>
      .TemporaryFailure (.ConnectionError
        (what ++ " " ++ rustQuote hostname ++ ": " ++ MailSendError.display .InvalidTLSName))
  | .MissingStartTls =>
      .TemporaryFailure (.ConnectionError
        (what ++ " " ++ rustQuote hostname ++ ": " ++ MailSendError.display .MissingStartTls))

/-- Errors surfaced by the external mail-auth DNS resolver crate.  Only
    DNSRecordNotFound is distinguished by the embedded From impl; the
    remaining constructors stand for the catch-all arm. -/
inductive MailAuthError where
  | DNSRecordNotFound (code : Nat)
  | DNSError (message : String)
  | ParseError
  | InvalidRecordType
  deriving DecidableEq, Repr

/-- Display text of a mail-auth error (Rust Display impl, abbreviated). -/
def MailAuthError.display : MailAuthError → String
  | .DNSRecordNotFound code => "DNS record not found: " ++ toString code
  | .DNSError m => "DNS error: " ++ m
  | .ParseError => "Parse error"
  | .InvalidRecordType => "Invalid record type"

/-- Embedding of `impl From<mail_auth::Error> for Status`
    (delivery.rs lines 501-510). -/
def Status.from_auth_error : MailAuthError → Status
  | .DNSRecordNotFound code =>
      .PermanentFailure (.DNSError ("Domain not found: " ++ toString code))
  | e => .TemporaryFailure (.DNSError (MailAuthError.display e))

/-- The queue Schedule container: a due instant and a payload
    (spec section 3; instants are naturals here). -/
structure Schedule (α : Type) where
  due : Nat
  inner : α
  deriving DecidableEq, Repr

/-- One routing target of a message.  Fields of the Rust struct that the
    embedded code never touches (notify times, expiry) are omitted. -/
structure Domain where
  domain : String
  status : Status
  retry : Schedule Nat
  deriving DecidableEq, Repr

/-- Embedding of `Domain::retry` (delivery.rs lines 455-459); named
    retry_step because the structure field projection already takes the
    name retry.  The Rust source indexes the schedule with
    min(attempt, len - 1) and panics on an empty schedule; every theorem
    below assumes a non-empty schedule. -/
def Domain.retry_step (d : Domain) (now : Nat) (schedule : List Nat) : Domain :=
  { d with retry :=
      { due := now + schedule.getD (min d.retry.inner (schedule.length - 1)) 0,
        inner := d.retry.inner + 1 } }

/-- Embedding of `Domain::set_status` (delivery.rs lines 448-453). -/
def Domain.set_status (d : Domain) (status : Status) (now : Nat)
    (schedule : List Nat) : Domain :=
  let d2 := { d with status := status }
  match status with
  | .TemporaryFailure _ => d2.retry_step now schedule
  | _ => d2

/-- C2: for every domain and every non-empty retry schedule, set_status calls
    retry exactly when the new status is TemporaryFailure; in that case the
    next due time becomes now plus schedule[min(attempt, N-1)] and the attempt
    counter increments by one, while any other transition (Completed,
    PermanentFailure, Scheduled) leaves the attempt counter and due time
    unchanged. -/
theorem c2_retry_on_temporary_failure (d : Domain) (s : Status) (now : Nat)
    (schedule : List Nat) (hne : schedule ≠ []) :
    d.set_status s now schedule =
      match s with
      | .TemporaryFailure _ =>
          { d with status := s, retry :=
              { due := now + schedule.get
                  ⟨min d.retry.inner (schedule.length - 1), by
                    have hlen : 0 < schedule.length := List.length_pos.mpr hne
                    omega⟩,
                inner := d.retry.inner + 1 } }
      | _ => { d with status := s } := by
  have hlen : 0 < schedule.length := List.length_pos.mpr hne
  have hidx : min d.retry.inner (schedule.length - 1) < schedule.length := by omega
  cases s with
  | TemporaryFailure e =>
      simp only [Domain.set_status, Domain.retry_step]
      have := List.getD_eq_get schedule 0 hidx
      rw [this]
  | Scheduled => rfl
  | Completed => rfl
  | PermanentFailure e => rfl

/-- Witness for C2 at a concrete input: a second temporary failure with a
    two-entry schedule clamps into the schedule and bumps the counter. -/
theorem c2_witness :
    Domain.set_status { domain := "ex", status := Status.Scheduled, retry := ⟨0, 2⟩ }
        (.TemporaryFailure (.ConnectionError "x")) 10 [3, 7] =
      { domain := "ex", status := .TemporaryFailure (.ConnectionError "x"),
        retry := ⟨17, 3⟩ } := by
  have h := c2_retry_on_temporary_failure
    { domain := "ex", status := Status.Scheduled, retry := ⟨0, 2⟩ }
    (.TemporaryFailure (.ConnectionError "x")) 10 [3, 7] (by decide)
  simpa using h

/-- C3: the error-to-status classification table.  UnexpectedReply splits on
    permanent-negative severity (equivalently, a 5xx code); IO, timeout,
    authentication and parse errors become TemporaryFailure(ConnectionError);
    DNS record-not-found becomes PermanentFailure(DNSError) and every other
    DNS error TemporaryFailure(DNSError). -/
theorem c3_error_classification (what hostname : String) (r : Reply)
    (e : MailAuthError) :
    (Status.from_send_error what hostname (.UnexpectedReply r) =
      if r.severity = .PermanentNegativeCompletion then
        .PermanentFailure (.UnexpectedResponse (what ++ " " ++ rustQuote hostname) r)
      else
        .TemporaryFailure (.UnexpectedResponse (what ++ " " ++ rustQuote hostname) r)) ∧
    (r.severity = .PermanentNegativeCompletion ↔ r.code / 100 = 5) ∧
    (∀ m, ∃ t, Status.from_send_error what hostname (.Io m) =
      .TemporaryFailure (.ConnectionError t)) ∧
    (∃ t, Status.from_send_error what hostname .Timeout =
      .TemporaryFailure (.ConnectionError t)) ∧
    (∀ rr, ∃ t, Status.from_send_error what hostname (.AuthenticationFailed rr) =
      .TemporaryFailure (.ConnectionError t)) ∧
    (∃ t, Status.from_send_error what hostname .UnparseableReply =
      .TemporaryFailure (.ConnectionError t)) ∧
    (∀ c, ∃ t, Status.from_auth_error (.DNSRecordNotFound c) =
      .PermanentFailure (.DNSError t)) ∧
    ((∀ c, e ≠ .DNSRecordNotFound c) →
      ∃ t, Status.from_auth_error e = .TemporaryFailure (.DNSError t)) := by
  refine ⟨rfl, ?_, fun m => ⟨_, rfl⟩, ⟨_, rfl⟩, fun rr => ⟨_, rfl⟩, ⟨_, rfl⟩,
    fun c => ⟨_, rfl⟩, ?_⟩
  · unfold Reply.severity
    split_ifs with h2 h3 h4 h5 <;> simp_all
  · intro hnot
    cases e with
    | DNSRecordNotFound c => exact absurd rfl (hnot c)
    | DNSError m => exact ⟨_, rfl⟩
    | ParseError => exact ⟨_, rfl⟩
    | InvalidRecordType => exact ⟨_, rfl⟩

/-- Witness for C3 at a concrete input: a non record-not-found DNS error is a
    temporary DNS failure, and a 554 reply has permanent-negative severity. -/
theorem c3_witness :
    (∃ t, Status.from_auth_error (.DNSError "servfail") =
      .TemporaryFailure (.DNSError t)) ∧
    (Reply.severity ⟨554, "rejected"⟩ = .PermanentNegativeCompletion ↔
      (554 : Nat) / 100 = 5) := by
  have h := c3_error_classification "Failed to connect to" "mx.example.org"
    ⟨554, "rejected"⟩ (.DNSError "servfail")
  exact ⟨h.2.2.2.2.2.2.2 (fun c hc => by cases hc), h.2.1⟩

/-- Protocol version selection outcome used by Config::build_server:
    ALL_VERSIONS, TLS13_VERSION or TLS12_VERSION. -/
inductive TlsVersions where
  | AllVersions
  | Tls13Only
  | Tls12Only
  deriving DecidableEq, Repr

/-- Embedding of the with_protocol_versions argument of Config::build_server
    (server.rs lines 147-153). -/
def protocol_versions (tls_v2 tls_v3 : Bool) : TlsVersions :=
  if tls_v3 = tls_v2 then .AllVersions
  else if tls_v3 then .Tls13Only
  else .Tls12Only

/-- Embedding of the tls.protocols parsing loop of Config::build_server
    (server.rs lines 49-66): the two accumulators are tls_v2 and tls_v3. -/
def parse_protocols : List String → Bool → Bool → Except String (Bool × Bool)
  | [], v2, v3 => .ok (v2, v3)
  | p :: rest, v2, v3 =>
      if p = "TLSv1.2" ∨ p = "0x0303" then parse_protocols rest true v3
      else if p = "TLSv1.3" ∨ p = "0x0304" then parse_protocols rest v2 true
      else .error ("Unsupported TLS protocol " ++ rustQuote p)

theorem parse_protocols_ok (protos : List String) :
    ∀ (a b v2 v3 : Bool), parse_protocols protos a b = .ok (v2, v3) →
      (v2 = true ↔ a = true ∨ "TLSv1.2" ∈ protos ∨ "0x0303" ∈ protos) ∧
      (v3 = true ↔ b = true ∨ "TLSv1.3" ∈ protos ∨ "0x0304" ∈ protos) := by
  induction protos with
  | nil =>
      intro a b v2 v3 h
      simp only [parse_protocols, Except.ok.injEq, Prod.mk.injEq] at h
      obtain ⟨rfl, rfl⟩ := h
      simp
  | cons p rest ih =>
      intro a b v2 v3 h
      simp only [parse_protocols] at h
      split_ifs at h with h1 h2
      · have := ih true b v2 v3 h
        rcases h1 with h1 | h1 <;> subst h1 <;> simp_all [List.mem_cons]
      · have := ih a true v2 v3 h
        rcases h2 with h2 | h2 <;> subst h2 <;> simp_all [List.mem_cons]

/-- C7: when building a listener's TLS server configuration, enabling neither
    or both of TLSv1.2 / TLSv1.3 in tls.protocols yields both protocol
    versions; naming exactly one enables only that version. -/
theorem c7_tls_protocol_versions (protos : List String) (v2 v3 : Bool)
    (h : parse_protocols protos false false = .ok (v2, v3)) :
    (v2 = true ↔ "TLSv1.2" ∈ protos ∨ "0x0303" ∈ protos) ∧
    (v3 = true ↔ "TLSv1.3" ∈ protos ∨ "0x0304" ∈ protos) ∧
    (protocol_versions v2 v3 = .AllVersions ↔ v2 = v3) ∧
    (protocol_versions v2 v3 = .Tls13Only ↔ v3 = true ∧ v2 = false) ∧
    (protocol_versions v2 v3 = .Tls12Only ↔ v2 = true ∧ v3 = false) := by
  obtain ⟨h2, h3⟩ := parse_protocols_ok protos false false v2 v3 h
  refine ⟨by simpa using h2, by simpa using h3, ?_, ?_, ?_⟩ <;>
    cases v2 <;> cases v3 <;> decide

/-- Witness for C7 at a concrete input: configuring only TLSv1.3 enables
    only TLS 1.3. -/
theorem c7_witness : protocol_versions false true = .Tls13Only :=
  (c7_tls_protocol_versions ["TLSv1.3"] false true rfl).2.2.2.1.mpr ⟨rfl, rfl⟩

/-- Relay host configuration (config RelayHost; only the fields read by
    delivery.rs are modelled). -/
structure RelayHost where
  address : String
  port : Nat
  tls_implicit : Bool
  tls_allow_invalid_certs : Bool
  deriving DecidableEq, Repr

/-- Embedding of the RemoteHost enum (delivery.rs lines 336-339). -/
inductive RemoteHost where
  | Relay (host : RelayHost)
  | MX (host : String)
  deriving DecidableEq, Repr

/-- Embedding of RemoteHost::hostname (delivery.rs lines 342-347). -/
def RemoteHost.hostname : RemoteHost → String
  | .MX host => host
  | .Relay host => host.address

/-- Embedding of RemoteHost::fqdn_hostname (delivery.rs lines 349-360). -/
def RemoteHost.fqdn_hostname : RemoteHost → String
  | .MX host => if host.endsWith "." then host else host ++ "."
  | .Relay host => host.address

/-- Embedding of RemoteHost::port (delivery.rs lines 362-367). -/
def RemoteHost.port : RemoteHost → Nat
  | .MX _ => 25
  | .Relay host => host.port

/-- Embedding of RemoteHost::allow_invalid_certs (delivery.rs lines 369-374). -/
def RemoteHost.allow_invalid_certs : RemoteHost → Bool
  | .MX _ => false
  | .Relay host => host.tls_allow_invalid_certs

/-- Embedding of RemoteHost::implicit_tls (delivery.rs lines 376-381). -/
def RemoteHost.implicit_tls : RemoteHost → Bool
  | .MX _ => false
  | .Relay host => host.tls_implicit

/-- TLS client connector profiles of the queue core. -/
inductive TlsConnector where
  | PkiVerify
  | DummyVerify
  deriving DecidableEq, Repr

/-- Embedding of the connector selection of try_deliver (delivery.rs lines
    202-208) for non-DANE strategies; the DANE branch of the source is
    todo!() and panics. -/
def connector_for (host : RemoteHost) : TlsConnector :=
  if !host.allow_invalid_certs then .PkiVerify else .DummyVerify

/-- An MX record group from the mail-auth resolver: all exchanges sharing one
    preference value. -/
structure MX where
  exchanges : List String
  preference : Nat
  deriving DecidableEq, Repr

/-- Embedding of the inner exchange loop of try_deliver (delivery.rs lines
    122-127): push exchanges until the accumulated list reaches max_mx, then
    break out of the inner loop only. -/
def push_exchanges (max_mx : Nat) : List String → List RemoteHost → List RemoteHost
  | [], acc => acc
  | h :: rest, acc =>
      let acc2 := acc ++ [RemoteHost.MX h]
      if acc2.length = max_mx then acc2 else push_exchanges max_mx rest acc2

/-- Embedding of the MX host-list construction of try_deliver (delivery.rs
    lines 113-135).  shuf is the equal-preference shuffle (a permutation in
    the source, drawn from thread_rng).  Note that in the multi-exchange
    branch the source break leaves only the inner loop, so the outer loop
    over MX records continues even after the list reached max_mx. -/
def mx_remote_hosts (shuf : List String → List String) (max_mx : Nat) :
    List MX → List RemoteHost → List RemoteHost
  | [], acc => acc
  | mx :: rest, acc =>
      if 1 < mx.exchanges.length then
        mx_remote_hosts shuf max_mx rest (push_exchanges max_mx (shuf mx.exchanges) acc)
      else
        match mx.exchanges.head? with
        | some h =>
            let acc2 := acc ++ [RemoteHost.MX h]
            if acc2.length = max_mx then acc2
            else mx_remote_hosts shuf max_mx rest acc2
        | none => mx_remote_hosts shuf max_mx rest acc

/-- Embedding of the remote-hosts selection of try_deliver (delivery.rs lines
    100-141), after a successful MX lookup: a matching next-hop relay wins,
    an empty MX list falls back to the implicit MX, otherwise the MX list is
    flattened with the cap. -/
def remote_hosts (shuf : List String → List String) (max_mx : Nat)
    (next_hop : Option RelayHost) (domain_name : String)
    (mx_list : List MX) : List RemoteHost :=
  match next_hop with
  | some relay => [RemoteHost.Relay relay]
  | none =>
      if mx_list.isEmpty then [RemoteHost.MX domain_name]
      else mx_remote_hosts shuf max_mx mx_list []

/-- C4 (code bug evaluation): with max_mx = 2 and MX records
    [{pref 10, [mx1, mx2]}, {pref 20, [mx3]}], the built host list has three
    entries, exceeding max_mx.  The break that fires when the cap is reached
    inside a multi-exchange group only leaves the inner loop, so the
    following MX record is still appended. -/
theorem c4_max_mx_exceeded :
    (mx_remote_hosts id 2 [⟨["mx1", "mx2"], 10⟩, ⟨["mx3"], 20⟩] []).length = 3 ∧
    mx_remote_hosts id 2 [⟨["mx1", "mx2"], 10⟩, ⟨["mx3"], 20⟩] [] =
      [RemoteHost.MX "mx1", RemoteHost.MX "mx2", RemoteHost.MX "mx3"] := by
  exact ⟨rfl, rfl⟩

/-- C6: a successful MX lookup with an empty record list yields exactly the
    implicit MX of the domain itself, contacted on port 25, with strict
    certificate verification (the pki-verify connector) and without
    implicit TLS. -/
theorem c6_implicit_mx (shuf : List String → List String) (max_mx : Nat)
    (domain_name : String) :
    remote_hosts shuf max_mx none domain_name [] = [RemoteHost.MX domain_name] ∧
    (RemoteHost.MX domain_name).port = 25 ∧
    (RemoteHost.MX domain_name).allow_invalid_certs = false ∧
    (RemoteHost.MX domain_name).implicit_tls = false ∧
    connector_for (RemoteHost.MX domain_name) = .PkiVerify :=
  ⟨rfl, rfl, rfl, rfl, rfl⟩

/-- Throttle failure (queue throttle::Error): a concurrency limit hit carrying
    the limiter key (keys are modelled as naturals), or a rate limit hit
    carrying the retry-at instant. -/
inductive ThrottleError where
  | Concurrency (limiter : Nat)
  | Rate (retry_at : Nat)
  deriving DecidableEq, Repr

/-- A queued message.  Only the fields the embedded delivery code reads are
    modelled: the flag bitset and the per-domain states. -/
structure Message where
  id : Nat
  flags : Nat
  domains : List Domain
  deriving DecidableEq, Repr

/-- Modelled from the spec: `Message::next_event` lives in queue/message.rs,
    which is not under src/.  Spec section 4.3: the minimum of all
    non-terminal domain.retry.due, or None. -/
def Message.next_event (m : Message) : Option Nat :=
  (m.domains.filterMap fun d =>
    if d.status.is_terminal then none else some d.retry.due).min?

/-- Modelled from the spec: `Message::next_event_after` is not under src/.
    Following next_event and the OnHold contract (spec section 3: the entry
    wakes when next_due elapses), it is the minimum non-terminal retry.due
    strictly after the given instant, or None. -/
def Message.next_event_after (m : Message) (instant : Nat) : Option Nat :=
  (m.domains.filterMap fun d =>
    if d.status.is_terminal then none
    else if instant < d.retry.due then some d.retry.due else none).min?

/-- Modelled from the spec: `Domain::set_throttle_error` is not under src/.
    Spec sections 4.3 and 7: a rate failure reschedules the domain
    (retry.due := retry_at) and a concurrency failure records the limiter key
    on the per-message on-hold vector; throttle failures are never counted as
    delivery failures and do not advance the retry counter.  The second
    component is the list of limiter keys pushed onto the on-hold vector. -/
def Domain.set_throttle_error (d : Domain) (err : ThrottleError) :
    Domain × List Nat :=
  match err with
  | .Rate retry_at => ({ d with retry := { d.retry with due := retry_at } }, [])
  | .Concurrency limiter => (d, [limiter])

/-- Environment behaviour for one processed domain inside the per-domain loop
    of DeliveryAttempt::try_deliver (delivery.rs lines 61-306).  Each
    constructor is one of the ways the loop body can finish for a domain:
    the first failing recipient-domain throttle rule (continue), a failed MX
    lookup (set_status of the converted error), the first failing remote-host
    throttle rule inside the host loop (continue), a delivery attempt over
    some connection (set_status of the Message::deliver result), or
    exhaustion of the host list (set_status of last_status). -/
inductive DomainOutcome where
  | RcptThrottle (err : ThrottleError)
  | MxLookupFailed (err : MailAuthError)
  | HostThrottle (err : ThrottleError)
  | Delivered (result : Status)
  | HostsExhausted (last_status : Status)

/-- Embedding of the due-for-delivery guard of try_deliver (delivery.rs lines
    63-67): only Scheduled or TemporaryFailure domains whose retry.due has
    passed are processed. -/
def domain_due (now : Nat) (d : Domain) : Bool :=
  match d.status with
  | .Scheduled | .TemporaryFailure _ => d.retry.due ≤ now
  | _ => false

/-- Net effect of the per-domain loop body on one due domain, as a function
    of the environment outcome: the updated domain and the limiter keys
    pushed onto the on-hold vector. -/
def process_domain (now : Nat) (schedule : List Nat) (d : Domain)
    (o : DomainOutcome) : Domain × List Nat :=
  match o with
  | .RcptThrottle err => d.set_throttle_error err
  | .MxLookupFailed err => (d.set_status (Status.from_auth_error err) now schedule, [])
  | .HostThrottle err => d.set_throttle_error err
  | .Delivered result => (d.set_status result now schedule, [])
  | .HostsExhausted last => (d.set_status last now schedule, [])

/-- Embedding of the domain loop of try_deliver (delivery.rs lines 61-306):
    domains are visited in order; domains failing the due guard are skipped
    unchanged; plan gives the environment outcome for the domain at each
    index.  Returns the updated domains and the accumulated on-hold limiter
    keys. -/
def run_domains (now : Nat) (schedule : List Nat) (plan : Nat → DomainOutcome) :
    Nat → List Domain → List Domain × List Nat
  | _, [] => ([], [])
  | idx, d :: rest =>
      let step := if domain_due now d then process_domain now schedule d (plan idx)
                  else (d, [])
      let tail := run_domains now schedule plan (idx + 1) rest
      (step.1 :: tail.1, step.2 ++ tail.2)

/-- An on-hold queue entry (queue OnHold struct). -/
structure OnHold where
  next_due : Option Nat
  limiters : List Nat
  message : Message
  deriving DecidableEq, Repr

/-- Result of a delivery attempt reported to the queue manager
    (queue WorkerResult). -/
inductive WorkerResult where
  | Done
  | Retry (s : Schedule Message)
  | OnHold (entry : StalwartSmtp.OnHold)
  deriving DecidableEq, Repr

/-- Effect of one call to DeliveryAttempt::try_deliver on the queue: a sender
    throttle failure pushes the whole message onto the on-hold set or back
    onto the main heap before any domain is attempted; otherwise the spawned
    task notifies the manager with a WorkerResult over the channel. -/
inductive DeliveryEffect where
  | PushOnHold (entry : StalwartSmtp.OnHold)
  | PushMain (s : Schedule Message)
  | Notify (r : WorkerResult)
  deriving DecidableEq, Repr

/-- First failing sender throttle rule (delivery.rs lines 24-34: the rules
    are checked in order and the first is_allowed error is acted upon). -/
def first_throttle_error : List (Option ThrottleError) → Option ThrottleError
  | [] => none
  | none :: rest => first_throttle_error rest
  | some e :: _ => some e

/-- Embedding of DeliveryAttempt::try_deliver (delivery.rs lines 22-333).
    sender_checks lists the per-rule results of the sender throttles; plan
    gives the environment outcome of each processed domain. -/
def try_deliver (now : Nat) (schedule : List Nat)
    (sender_checks : List (Option ThrottleError)) (plan : Nat → DomainOutcome)
    (m : Message) : DeliveryEffect :=
  match first_throttle_error sender_checks with
  | some (.Concurrency limiter) =>
      .PushOnHold { next_due := m.next_event_after now, limiters := [limiter],
                    message := m }
  | some (.Rate retry_at) => .PushMain { due := retry_at, inner := m }
  | none =>
      let r := run_domains now schedule plan 0 m.domains
      let m2 := { m with domains := r.1 }
      .Notify (if !r.2.isEmpty then
                 .OnHold { next_due := m2.next_event_after now, limiters := r.2,
                           message := m2 }
               else match m2.next_event with
                 | some due => .Retry { due := due, inner := m2 }
                 | none => .Done)

/-- C9: a failing sender-level throttle rule stops the attempt before any
    domain is touched: the message (all domain statuses and retry counters
    included) is passed through unchanged, rescheduled on the main heap at
    retry_at on a rate failure, or pushed onto the on-hold set carrying
    exactly the failing limiter key on a concurrency failure. -/
theorem c9_sender_throttle (now : Nat) (schedule : List Nat)
    (sender_checks : List (Option ThrottleError)) (plan : Nat → DomainOutcome)
    (m : Message) (err : ThrottleError)
    (h : first_throttle_error sender_checks = some err) :
    try_deliver now schedule sender_checks plan m =
      match err with
      | .Rate retry_at => .PushMain { due := retry_at, inner := m }
      | .Concurrency limiter =>
          .PushOnHold { next_due := m.next_event_after now,
                        limiters := [limiter], message := m } := by
  cases err <;> simp [try_deliver, h]

/-- Witness for C9 at a concrete input: a rate-failing sender throttle
    reschedules the untouched message at the retry-at instant. -/
theorem c9_witness :
    try_deliver 5 [1] [some (ThrottleError.Rate 42)]
        (fun _ => .Delivered .Completed)
        (Message.mk 1 0 [Domain.mk "d" .Scheduled (Schedule.mk 0 0)]) =
      .PushMain (Schedule.mk 42
        (Message.mk 1 0 [Domain.mk "d" .Scheduled (Schedule.mk 0 0)])) :=
  c9_sender_throttle 5 [1] [some (ThrottleError.Rate 42)]
    (fun _ => .Delivered .Completed)
    (Message.mk 1 0 [Domain.mk "d" .Scheduled (Schedule.mk 0 0)])
    (ThrottleError.Rate 42) rfl

/-- C8: the processed-domains invariant of the domain loop.  The output list
    has the same length as the input; a domain whose due guard fails (it is
    Completed or PermanentFailure, or its retry.due lies in the future) is
    returned unchanged, while a domain passing the guard is exactly the one
    rewritten by the loop body; and the guard holds precisely for Scheduled
    or TemporaryFailure domains with retry.due at or before now. -/
theorem c8_skip_terminal_and_future (now : Nat) (schedule : List Nat)
    (plan : Nat → DomainOutcome) (idx : Nat) (ds : List Domain) :
    ((run_domains now schedule plan idx ds).1.length = ds.length) ∧
    (∀ i (h1 : i < ds.length)
        (h2 : i < (run_domains now schedule plan idx ds).1.length),
      (domain_due now (ds.get ⟨i, h1⟩) = false →
        (run_domains now schedule plan idx ds).1.get ⟨i, h2⟩ = ds.get ⟨i, h1⟩) ∧
      (domain_due now (ds.get ⟨i, h1⟩) = true →
        (run_domains now schedule plan idx ds).1.get ⟨i, h2⟩ =
          (process_domain now schedule (ds.get ⟨i, h1⟩) (plan (idx + i))).1)) ∧
    (∀ d : Domain, domain_due now d = true ↔
      ((d.status = .Scheduled ∨ ∃ e, d.status = .TemporaryFailure e) ∧
        d.retry.due ≤ now)) := by
  refine ⟨?_, ?_, ?_⟩
  · induction ds generalizing idx with
    | nil => rfl
    | cons d rest ih => simpa [run_domains] using ih (idx + 1)
  · induction ds generalizing idx with
    | nil => intro i h1; exact absurd h1 (by simp)
    | cons d rest ih =>
        intro i h1 h2
        cases i with
        | zero =>
            refine ⟨fun hdue => ?_, fun hdue => ?_⟩
            · have hd : domain_due now d = false := hdue
              show (if domain_due now d then process_domain now schedule d (plan idx)
                    else (d, [])).1 = d
              rw [hd]
              rfl
            · have hd : domain_due now d = true := hdue
              show (if domain_due now d then process_domain now schedule d (plan idx)
                    else (d, [])).1 = (process_domain now schedule d (plan (idx + 0))).1
              rw [hd]
              rfl
        | succ j =>
            have hj1 : j < rest.length := by simpa using h1
            have hj2 : j < (run_domains now schedule plan (idx + 1) rest).1.length := by
              have hstep : (run_domains now schedule plan idx (d :: rest)).1.length =
                  (run_domains now schedule plan (idx + 1) rest).1.length + 1 := rfl
              omega
            have hih := ih (idx + 1) j hj1 hj2
            have hget : (run_domains now schedule plan idx (d :: rest)).1.get
                ⟨j + 1, h2⟩ =
                (run_domains now schedule plan (idx + 1) rest).1.get ⟨j, hj2⟩ := rfl
            have hget2 : (d :: rest).get ⟨j + 1, h1⟩ = rest.get ⟨j, hj1⟩ := rfl
            have harith : idx + 1 + j = idx + (j + 1) := by omega
            refine ⟨fun hdue => ?_, fun hdue => ?_⟩
            · rw [hget, hget2]
              exact hih.1 (by rw [← hget2]; exact hdue)
            · rw [hget, hget2, ← harith]
              exact hih.2 (by rw [← hget2]; exact hdue)
  · intro d
    unfold domain_due
    cases hs : d.status <;> simp [hs]

/-- Witness for C8 at a concrete input: a Completed domain and a future-due
    TemporaryFailure domain are returned unchanged while a due Scheduled
    domain is rewritten. -/
theorem c8_witness :
    (run_domains 10 [5] (fun _ => .Delivered .Completed) 0
      [{ domain := "a", status := .Completed, retry := ⟨0, 1⟩ },
       { domain := "b", status := .TemporaryFailure (.ConnectionError "x"),
         retry := ⟨99, 2⟩ },
       { domain := "c", status := .Scheduled, retry := ⟨0, 0⟩ }]).1.get
      ⟨0, by decide⟩ = { domain := "a", status := .Completed, retry := ⟨0, 1⟩ } := by
  have h := (c8_skip_terminal_and_future 10 [5] (fun _ => .Delivered .Completed) 0
    [{ domain := "a", status := .Completed, retry := ⟨0, 1⟩ },
     { domain := "b", status := .TemporaryFailure (.ConnectionError "x"),
       retry := ⟨99, 2⟩ },
     { domain := "c", status := .Scheduled, retry := ⟨0, 0⟩ }]).2.1 0
    (by decide) (by decide)
  exact h.1 (by decide)

/-- A domain is settled for the purpose of result folding when it is terminal
    or its retry is due strictly in the future. -/
def settled (now : Nat) (d : Domain) : Prop :=
  d.status.is_terminal = true ∨ now < d.retry.due

/-- Environment sanity for one processed domain: rate-limiter retry-at
    instants lie strictly in the future, Message::deliver yields a real
    delivery status (never Scheduled), and a host loop that exhausted every
    host has recorded a failure as last_status (each assignment to
    last_status in the source stores the result of a From conversion, which
    is always TemporaryFailure or PermanentFailure). -/
def plan_ok (now : Nat) : DomainOutcome → Prop
  | .RcptThrottle (.Rate r) => now < r
  | .HostThrottle (.Rate r) => now < r
  | .Delivered s => s ≠ .Scheduled
  | .HostsExhausted s =>
      (∃ e, s = .TemporaryFailure e) ∨ (∃ e, s = .PermanentFailure e)
  | _ => True

theorem set_status_settled (d : Domain) (s : Status) (now : Nat)
    (schedule : List Nat) (hne : schedule ≠ []) (hpos : ∀ x ∈ schedule, 0 < x)
    (hs : s ≠ .Scheduled) :
    settled now (d.set_status s now schedule) := by
  cases s with
  | Scheduled => exact absurd rfl hs
  | Completed => exact Or.inl rfl
  | PermanentFailure e => exact Or.inl rfl
  | TemporaryFailure e =>
      refine Or.inr ?_
      have hlen : 0 < schedule.length := List.length_pos.mpr hne
      have hidx : min d.retry.inner (schedule.length - 1) < schedule.length := by
        omega
      show now < now + schedule.getD (min d.retry.inner (schedule.length - 1)) 0
      have hmem : schedule.getD (min d.retry.inner (schedule.length - 1)) 0 ∈
          schedule := by
        rw [List.getD_eq_get schedule 0 hidx]
        exact List.get_mem _ _ _
      have := hpos _ hmem
      omega

theorem not_due_settled (now : Nat) (d : Domain)
    (h : domain_due now d = false) : settled now d := by
  unfold domain_due at h
  unfold settled Status.is_terminal
  cases hs : d.status <;> rw [hs] at h <;> simp_all

theorem process_domain_settled (now : Nat) (schedule : List Nat) (d : Domain)
    (o : DomainOutcome) (hne : schedule ≠ []) (hpos : ∀ x ∈ schedule, 0 < x)
    (hok : plan_ok now o)
    (hkeys : (process_domain now schedule d o).2 = []) :
    settled now (process_domain now schedule d o).1 := by
  cases o with
  | RcptThrottle err =>
      cases err with
      | Concurrency l =>
          simp [process_domain, Domain.set_throttle_error] at hkeys
      | Rate r => exact Or.inr hok
  | HostThrottle err =>
      cases err with
      | Concurrency l =>
          simp [process_domain, Domain.set_throttle_error] at hkeys
      | Rate r => exact Or.inr hok
  | MxLookupFailed err =>
      apply set_status_settled _ _ _ _ hne hpos
      cases err <;> simp [Status.from_auth_error]
  | Delivered s => exact set_status_settled _ _ _ _ hne hpos hok
  | HostsExhausted s =>
      apply set_status_settled _ _ _ _ hne hpos
      rcases hok with ⟨e, rfl⟩ | ⟨e, rfl⟩ <;> simp

theorem run_domains_settled (now : Nat) (schedule : List Nat)
    (plan : Nat → DomainOutcome) (hne : schedule ≠ [])
    (hpos : ∀ x ∈ schedule, 0 < x) (hplan : ∀ i, plan_ok now (plan i)) :
    ∀ (idx : Nat) (ds : List Domain),
      (run_domains now schedule plan idx ds).2 = [] →
      ∀ d2 ∈ (run_domains now schedule plan idx ds).1, settled now d2 := by
  intro idx ds
  induction ds generalizing idx with
  | nil => intro _ d2 hd2; simp [run_domains] at hd2
  | cons d rest ih =>
      intro hkeys d2 hd2
      by_cases hdue : domain_due now d = true
      · have hk : (process_domain now schedule d (plan idx)).2 ++
            (run_domains now schedule plan (idx + 1) rest).2 = [] := by
          simpa [run_domains, hdue] using hkeys
        have hm : d2 = (process_domain now schedule d (plan idx)).1 ∨
            d2 ∈ (run_domains now schedule plan (idx + 1) rest).1 := by
          simpa [run_domains, hdue] using hd2
        have hk2 := List.append_eq_nil.mp hk
        rcases hm with rfl | hm
        · exact process_domain_settled now schedule d (plan idx) hne hpos
            (hplan idx) hk2.1
        · exact ih (idx + 1) hk2.2 d2 hm
      · have hb : domain_due now d = false := by simpa using hdue
        have hk : (run_domains now schedule plan (idx + 1) rest).2 = [] := by
          simpa [run_domains, hb] using hkeys
        have hm : d2 = d ∨
            d2 ∈ (run_domains now schedule plan (idx + 1) rest).1 := by
          simpa [run_domains, hb] using hd2
        rcases hm with rfl | hm
        · exact not_due_settled now d2 hb
        · exact ih (idx + 1) hk d2 hm

/-- C1: the WorkerResult reported to the queue manager at the end of an
    attempt follows the priority order of the source: on-hold limiter keys
    collected during the attempt win and are carried exactly (with the next
    wake-up instant); otherwise, if some domain is still non-terminal, the
    result is Retry whose due is the minimum retry.due over the non-terminal
    domains and lies strictly after now; otherwise the result is Done and
    every domain is terminal. -/
theorem c1_worker_result (now : Nat) (schedule : List Nat)
    (sender_checks : List (Option ThrottleError)) (plan : Nat → DomainOutcome)
    (m : Message) (domains2 : List Domain) (keys : List Nat)
    (hpos : ∀ x ∈ schedule, 0 < x) (hne : schedule ≠ [])
    (hsender : first_throttle_error sender_checks = none)
    (hplan : ∀ i, plan_ok now (plan i))
    (hrun : run_domains now schedule plan 0 m.domains = (domains2, keys)) :
    (keys ≠ [] →
      try_deliver now schedule sender_checks plan m =
        .Notify (.OnHold
          { next_due := Message.next_event_after { m with domains := domains2 } now,
            limiters := keys,
            message := { m with domains := domains2 } })) ∧
    (keys = [] →
      ∀ due, Message.next_event { m with domains := domains2 } = some due →
        try_deliver now schedule sender_checks plan m =
          .Notify (.Retry { due := due, inner := { m with domains := domains2 } }) ∧
        (domains2.filterMap fun d =>
          if d.status.is_terminal then none else some d.retry.due).min? =
            some due ∧
        now < due) ∧
    (keys = [] →
      Message.next_event { m with domains := domains2 } = none →
        try_deliver now schedule sender_checks plan m = .Notify .Done ∧
        ∀ d2 ∈ domains2, d2.status.is_terminal = true) := by
  have heffect : try_deliver now schedule sender_checks plan m =
      .Notify (if !keys.isEmpty then
        .OnHold
          { next_due := Message.next_event_after { m with domains := domains2 } now,
            limiters := keys,
            message := { m with domains := domains2 } }
      else match Message.next_event { m with domains := domains2 } with
        | some due => .Retry { due := due, inner := { m with domains := domains2 } }
        | none => .Done) := by
    simp only [try_deliver, hsender, hrun]
  refine ⟨?_, ?_, ?_⟩
  · intro hkeys
    cases keys with
    | nil => exact absurd rfl hkeys
    | cons k ks => simpa using heffect
  · intro hkeys due hdue
    subst hkeys
    have hsettled : ∀ d2 ∈ domains2, settled now d2 := by
      have h0 := run_domains_settled now schedule plan hne hpos hplan 0 m.domains
      rw [hrun] at h0
      exact h0 rfl
    refine ⟨by rw [heffect]; simp [hdue], hdue, ?_⟩
    have hmem : due ∈ domains2.filterMap fun d =>
        if d.status.is_terminal then none else some d.retry.due :=
      List.min?_mem (fun a b => min_choice a b) hdue
    obtain ⟨d2, hd2, hval⟩ := List.mem_filterMap.mp hmem
    by_cases hterm : d2.status.is_terminal = true
    · simp [hterm] at hval
    · have hterm2 : d2.status.is_terminal = false := by
        simpa using hterm
      simp [hterm2] at hval
      rcases hsettled d2 hd2 with h | h
      · exact absurd h hterm
      · omega
  · intro hkeys hnone
    subst hkeys
    refine ⟨by rw [heffect]; simp [hnone], ?_⟩
    have hnil : (domains2.filterMap fun d =>
        if d.status.is_terminal then none else some d.retry.due) = [] :=
      List.min?_eq_none_iff.mp hnone
    intro d2 hd2
    by_contra hterm
    have hterm2 : d2.status.is_terminal = false := by
      simpa using hterm
    have : d2.retry.due ∈ domains2.filterMap fun d =>
        if d.status.is_terminal then none else some d.retry.due :=
      List.mem_filterMap.mpr ⟨d2, hd2, by simp [hterm2]⟩
    rw [hnil] at this
    simp at this

/-- Witness for C1 at a concrete input: one due Scheduled domain whose
    delivery ends in a temporary failure makes the attempt report Retry at
    the new due instant, strictly after now. -/
theorem c1_witness :
    try_deliver 10 [5] []
        (fun _ => .Delivered (.TemporaryFailure (.ConnectionError "x")))
        (Message.mk 1 0 [Domain.mk "d" .Scheduled (Schedule.mk 0 0)]) =
      .Notify (.Retry (Schedule.mk 15
        (Message.mk 1 0 [Domain.mk "d"
          (.TemporaryFailure (.ConnectionError "x")) (Schedule.mk 15 1)]))) ∧
    (10 : Nat) < 15 := by
  have h := (c1_worker_result 10 [5] []
    (fun _ => .Delivered (.TemporaryFailure (.ConnectionError "x")))
    (Message.mk 1 0 [Domain.mk "d" .Scheduled (Schedule.mk 0 0)])
    [Domain.mk "d" (.TemporaryFailure (.ConnectionError "x")) (Schedule.mk 15 1)]
    [] (by decide) (by decide) rfl
    (fun i h => Status.noConfusion h) rfl).2.1 rfl 15 rfl
  exact ⟨h.1, h.2.2⟩

/-- The REQUIRETLS MAIL parameter bit from the external smtp-proto crate; the
    exact bit position is immaterial to the properties proved here. -/
def MAIL_REQUIRETLS : Nat := 2048

/-- Embedding of the session StartTlsResult (queue/session.rs, summarised by
    its use in delivery.rs lines 222-265); the smtp_client handles carried by
    the Rust variants are transport state and are omitted. -/
inductive StartTlsResult where
  | Success
  | Unavailable (response : Reply)
  deriving DecidableEq, Repr

/-- Outcome of the per-connection delivery branch for one host: a delivery
    over TLS, a delivery in cleartext over the same connection, or a recorded
    failure followed by continue to the next host. -/
inductive HostDeliveryStep where
  | DeliveredTls (result : Status)
  | DeliveredCleartext (result : Status)
  | NextHost (last_status : Status)
  deriving DecidableEq, Repr

/-- Embedding of the STARTTLS branch of try_deliver (delivery.rs lines
    210-265) for a host without implicit TLS, after a successful greeting:
    dispatch on the try_start_tls result.  tls_required is
    tls_strategy.is_tls_required(); deliver abstracts Message::deliver
    (session.rs, not under src/), its argument telling whether the channel
    was upgraded to TLS. -/
def handle_start_tls (mx : String) (tls_required : Bool) (flags : Nat)
    (res : Except Status StartTlsResult) (deliver : Bool → Status) :
    HostDeliveryStep :=
  match res with
  | .ok .Success => .DeliveredTls (deliver true)
  | .ok (.Unavailable response) =>
      if tls_required || (flags &&& MAIL_REQUIRETLS != 0) then
        .NextHost (Status.from_send_error "TLS unavailable for" mx
          (.UnexpectedReply response))
      else .DeliveredCleartext (deliver false)
  | .error status => .NextHost status

/-- Decides whether a host step recorded a TemporaryFailure carrying the
    synthetic TlsRequiredUnavailable error kind. -/
def records_tls_required_unavailable : HostDeliveryStep → Bool
  | .NextHost (.TemporaryFailure (.TlsRequiredUnavailable _)) => true
  | _ => false

/-- C5 counterexample: with the TLS strategy requiring TLS and STARTTLS
    reported unavailable with a 554 reply, the source records
    Status::from of an UnexpectedReply — here PermanentFailure with an
    UnexpectedResponse error — not TemporaryFailure with a
    TlsRequiredUnavailable error as the claim states. -/
theorem c5_counterexample :
    handle_start_tls "mx.example.org" true 0
        (.ok (.Unavailable (Reply.mk 554 "No TLS"))) (fun _ => .Completed) =
      .NextHost (.PermanentFailure (.UnexpectedResponse
        ("TLS unavailable for" ++ " " ++ rustQuote "mx.example.org")
        (Reply.mk 554 "No TLS"))) ∧
    records_tls_required_unavailable (handle_start_tls "mx.example.org" true 0
        (.ok (.Unavailable (Reply.mk 554 "No TLS"))) (fun _ => .Completed)) =
      false :=
  ⟨rfl, rfl⟩

/-- C5 (amended): when STARTTLS is unavailable and either the strategy
    requires TLS or the message carries MAIL_REQUIRETLS, the attempt never
    delivers (neither in cleartext nor over TLS) and records the failure as
    the From conversion of an UnexpectedReply of the STARTTLS response —
    PermanentFailure(UnexpectedResponse) for a 5xx reply and
    TemporaryFailure(UnexpectedResponse) otherwise — before moving to the
    next host; when TLS is not required and the flag is unset, the message
    is delivered in cleartext over the same connection. -/
theorem c5_starttls_policy (mx : String) (tls_required : Bool) (flags : Nat)
    (response : Reply) (deliver : Bool → Status) :
    ((tls_required = true ∨ (flags &&& MAIL_REQUIRETLS != 0) = true) →
      handle_start_tls mx tls_required flags (.ok (.Unavailable response))
          deliver =
        .NextHost (Status.from_send_error "TLS unavailable for" mx
          (.UnexpectedReply response)) ∧
      (∀ st, handle_start_tls mx tls_required flags (.ok (.Unavailable response))
          deliver ≠ .DeliveredCleartext st) ∧
      (∀ st, handle_start_tls mx tls_required flags (.ok (.Unavailable response))
          deliver ≠ .DeliveredTls st) ∧
      (response.code / 100 = 5 →
        Status.from_send_error "TLS unavailable for" mx
            (.UnexpectedReply response) =
          .PermanentFailure (.UnexpectedResponse
            ("TLS unavailable for" ++ " " ++ rustQuote mx) response)) ∧
      (response.code / 100 ≠ 5 →
        Status.from_send_error "TLS unavailable for" mx
            (.UnexpectedReply response) =
          .TemporaryFailure (.UnexpectedResponse
            ("TLS unavailable for" ++ " " ++ rustQuote mx) response))) ∧
    (tls_required = false → (flags &&& MAIL_REQUIRETLS != 0) = false →
      handle_start_tls mx tls_required flags (.ok (.Unavailable response))
          deliver = .DeliveredCleartext (deliver false)) := by
  have hsev : (Reply.severity response = .PermanentNegativeCompletion ↔
      response.code / 100 = 5) := by
    unfold Reply.severity
    split_ifs with h2 h3 h4 h5 <;> simp_all
  constructor
  · intro hreq
    have hcond : (tls_required || (flags &&& MAIL_REQUIRETLS != 0)) = true := by
      rcases hreq with h | h <;> simp [h]
    refine ⟨by simp [handle_start_tls, hcond], ?_, ?_, ?_, ?_⟩
    · intro st
      simp [handle_start_tls, hcond]
    · intro st
      simp [handle_start_tls, hcond]
    · intro h5
      simp [Status.from_send_error, hsev.mpr h5]
    · intro h5
      have : ¬ Reply.severity response = .PermanentNegativeCompletion := by
        rw [hsev]; exact h5
      simp [Status.from_send_error, this]
  · intro h1 h2
    simp [handle_start_tls, h1, h2]

/-- Witness for C5 at a concrete input: with MAIL_REQUIRETLS set and a 250
    reply (STARTTLS capability missing), the recorded status is a temporary
    UnexpectedResponse failure and no cleartext delivery happens; without
    the requirement the same reply leads to cleartext delivery. -/
theorem c5_witness :
    (handle_start_tls "mx" false MAIL_REQUIRETLS
        (.ok (.Unavailable (Reply.mk 250 "ok"))) (fun _ => .Completed) =
      .NextHost (.TemporaryFailure (.UnexpectedResponse
        ("TLS unavailable for" ++ " " ++ rustQuote "mx") (Reply.mk 250 "ok")))) ∧
    (handle_start_tls "mx" false 0
        (.ok (.Unavailable (Reply.mk 250 "ok"))) (fun _ => .Completed) =
      .DeliveredCleartext .Completed) := by
  have h := c5_starttls_policy "mx" false MAIL_REQUIRETLS (Reply.mk 250 "ok")
    (fun _ => .Completed)
  have h2 := c5_starttls_policy "mx" false 0 (Reply.mk 250 "ok")
    (fun _ => .Completed)
  have ha := h.1 (Or.inr (by decide))
  refine ⟨?_, h2.2 rfl (by decide)⟩
  rw [ha.1, ha.2.2.2.2 (by decide)]

/-- A recipient address held in the session state (core SessionAddress). -/
structure SessionAddress where
  address : String
  address_lcase : String
  domain : String
  flags : Nat
  deriving DecidableEq, Repr

/-- Modelled from the spec: the PartialEq impl for SessionAddress lives in
    core, which is not under src/; two session addresses are the same
    recipient when their lowercased addresses coincide.  Vec::contains in
    handle_rcpt_to compares with this equality. -/
instance : BEq SessionAddress := ⟨fun a b => a.address_lcase == b.address_lcase⟩

/-- The part of the session state read and written by handle_rcpt_to. -/
structure SessionData where
  mail_from : Option String
  rcpt_to : List SessionAddress
  rcpt_errors : Nat
  deriving Repr

/-- The session parameters read by handle_rcpt_to; has_rcpt_lookups is true
    when both rcpt_lookup_domain and rcpt_lookup_addresses are configured. -/
structure SessionParams where
  rcpt_max : Nat
  rcpt_relay : Bool
  rcpt_errors_max : Nat
  has_rcpt_lookups : Bool
  deriving DecidableEq, Repr

/-- Oracle for the asynchronous collaborators of handle_rcpt_to: the domain
    and address existence lookups (None models a lookup error) and the rate
    limiter verdict. -/
structure RcptEnv where
  domain_exists : String → Option Bool
  address_exists : String → Option Bool
  is_allowed : Bool

/-- Result of one handle_rcpt_to call: the updated session data, the replies
    written to the client in order, and whether the session stays open
    (Ok versus Err of the Rust signature). -/
structure RcptStep where
  data : SessionData
  writes : List String
  ok : Bool
  deriving Repr

/-- The characters after the last at sign, or none when the list has no at
    sign (character level model of Rust rsplit_once at the at sign). -/
def after_last_at : List Char → Option (List Char)
  | [] => none
  | c :: rest =>
      match after_last_at rest with
      | some d => some d
      | none => if c = '@' then some rest else none

/-- Embedding of the RCPT construction of handle_rcpt_to (rcpt.rs lines
    14-25): lowercase the address (character by character, the model of Rust
    to_lowercase) and take the part after the last at sign as the domain,
    defaulting to the empty string. -/
def mk_session_address (address : String) (flags : Nat) : SessionAddress :=
  let address_lcase : String := ⟨address.data.map Char.toLower⟩
  { address := address
    address_lcase := address_lcase
    domain :=
      match after_last_at address_lcase.data with
      | some d => ⟨d⟩
      | none => ""
    flags := flags }

/-- Embedding of Session::rcpt_error (rcpt.rs lines 71-88): wait, count the
    error, write the response, and disconnect with a 421 when the error
    budget is exhausted. -/
def rcpt_error (p : SessionParams) (d : SessionData) (response : String) :
    RcptStep :=
  let d2 := { d with rcpt_errors := d.rcpt_errors + 1 }
  if d2.rcpt_errors < p.rcpt_errors_max then
    { data := d2, writes := [response], ok := true }
  else
    { data := d2,
      writes := [response, "421 4.3.0 Too many errors, disconnecting.\r\n"],
      ok := false }

/-- Embedding of the address verification section of handle_rcpt_to
    (rcpt.rs lines 27-56): Some means an early return with that step, None
    means verification passed and the handler continues. -/
def verify_rcpt (p : SessionParams) (env : RcptEnv) (rcpt : SessionAddress)
    (d : SessionData) : Option RcptStep :=
  if p.has_rcpt_lookups then
    match env.domain_exists rcpt.domain with
    | some is_local_domain =>
        if is_local_domain then
          match env.address_exists rcpt.address_lcase with
          | some is_local_address =>
              if !is_local_address then
                some (rcpt_error p d "550 5.1.2 Mailbox does not exist.\r\n")
              else none
          | none =>
              some (RcptStep.mk d
                ["451 4.4.3 Unable to verify address at this time.\r\n"] true)
        else if !p.rcpt_relay then
          some (rcpt_error p d "550 5.1.2 Relay not allowed.\r\n")
        else none
    | none =>
        some (RcptStep.mk d
          ["451 4.4.3 Unable to verify address at this time.\r\n"] true)
  else if !p.rcpt_relay then
    some (rcpt_error p d "550 5.1.2 Relay not allowed.\r\n")
  else none

/-- Embedding of Session::handle_rcpt_to (rcpt.rs lines 7-69). -/
def handle_rcpt_to (p : SessionParams) (env : RcptEnv) (d : SessionData)
    (to_address : String) (to_flags : Nat) : RcptStep :=
  if d.mail_from.isNone then
    { data := d, writes := ["503 5.5.1 MAIL is required first.\r\n"], ok := true }
  else if p.rcpt_max ≤ d.rcpt_to.length then
    { data := d, writes := ["451 4.5.3 Too many recipients.\r\n"], ok := true }
  else
    let rcpt := mk_session_address to_address to_flags
    match verify_rcpt p env rcpt d with
    | some step => step
    | none =>
        if !(d.rcpt_to.any fun a => a == rcpt) then
          let d2 := { d with rcpt_to := d.rcpt_to ++ [rcpt] }
          if !env.is_allowed then
            { data := { d2 with rcpt_to := d2.rcpt_to.dropLast },
              writes := ["451 4.4.5 Rate limit exceeded, try again later.\r\n"],
              ok := true }
          else { data := d2, writes := ["250 2.1.5 OK\r\n"], ok := true }
        else { data := d, writes := ["250 2.1.5 OK\r\n"], ok := true }

/-- Decides whether a written reply is the positive 250 one (its first three
    characters). -/
def is_ok_reply (w : String) : Bool := w.data.take 3 == "250".data

/-- The recipient list is duplicate free with respect to session address
    equality. -/
def no_dup_rcpt (l : List SessionAddress) : Prop :=
  l.Pairwise fun a b => (a == b) = false

theorem rcpt_error_shape (p : SessionParams) (d : SessionData) (response : String) :
    (rcpt_error p d response).data.rcpt_to = d.rcpt_to ∧
    ∀ w ∈ (rcpt_error p d response).writes,
      w = response ∨ w = "421 4.3.0 Too many errors, disconnecting.\r\n" := by
  simp only [rcpt_error]
  split_ifs <;> constructor <;> simp_all

theorem verify_rcpt_unchanged (p : SessionParams) (env : RcptEnv)
    (rcpt : SessionAddress) (d : SessionData) (step : RcptStep)
    (h : verify_rcpt p env rcpt d = some step) :
    step.data.rcpt_to = d.rcpt_to ∧
    ∀ w ∈ step.writes, is_ok_reply w = false := by
  have h550a := rcpt_error_shape p d "550 5.1.2 Mailbox does not exist.\r\n"
  have h550b := rcpt_error_shape p d "550 5.1.2 Relay not allowed.\r\n"
  unfold verify_rcpt at h
  split at h
  · -- lookups configured
    split at h
    · -- domain lookup answered
      split at h
      · -- local domain
        split at h
        · -- address lookup answered
          split at h
          · -- not a local address: 550 via rcpt_error
            have hs := Option.some_inj.mp h
            subst hs
            refine ⟨h550a.1, ?_⟩
            intro w hw
            rcases h550a.2 w hw with rfl | rfl <;> decide
          · exact Option.noConfusion h
        · -- address lookup failed: 451
          have hs := Option.some_inj.mp h
          subst hs
          refine ⟨rfl, ?_⟩
          intro w hw
          simp at hw
          subst hw
          decide
      · -- remote domain
        split at h
        · -- relaying refused: 550 via rcpt_error
          have hs := Option.some_inj.mp h
          subst hs
          refine ⟨h550b.1, ?_⟩
          intro w hw
          rcases h550b.2 w hw with rfl | rfl <;> decide
        · exact Option.noConfusion h
    · -- domain lookup failed: 451
      have hs := Option.some_inj.mp h
      subst hs
      refine ⟨rfl, ?_⟩
      intro w hw
      simp at hw
      subst hw
      decide
  · -- no lookups configured
    split at h
    · -- relaying refused: 550 via rcpt_error
      have hs := Option.some_inj.mp h
      subst hs
      refine ⟨h550b.1, ?_⟩
      intro w hw
      rcases h550b.2 w hw with rfl | rfl <;> decide
    · exact Option.noConfusion h

theorem handle_rcpt_to_shape (p : SessionParams) (env : RcptEnv)
    (d : SessionData) (to_address : String) (to_flags : Nat) :
    ((handle_rcpt_to p env d to_address to_flags).data.rcpt_to = d.rcpt_to ∧
      ∀ w ∈ (handle_rcpt_to p env d to_address to_flags).writes,
        is_ok_reply w = false) ∨
    ((handle_rcpt_to p env d to_address to_flags).data.rcpt_to = d.rcpt_to ∧
      (handle_rcpt_to p env d to_address to_flags).writes = ["250 2.1.5 OK\r\n"]) ∨
    ((handle_rcpt_to p env d to_address to_flags).data.rcpt_to =
        d.rcpt_to ++ [mk_session_address to_address to_flags] ∧
      (handle_rcpt_to p env d to_address to_flags).writes = ["250 2.1.5 OK\r\n"] ∧
      (d.rcpt_to.any fun a => a == mk_session_address to_address to_flags) =
        false) := by
  unfold handle_rcpt_to
  by_cases h1 : d.mail_from.isNone = true
  · rw [if_pos h1]
    refine Or.inl ⟨rfl, ?_⟩
    intro w hw
    simp at hw
    subst hw
    decide
  · rw [if_neg h1]
    by_cases h2 : p.rcpt_max ≤ d.rcpt_to.length
    · rw [if_pos h2]
      refine Or.inl ⟨rfl, ?_⟩
      intro w hw
      simp at hw
      subst hw
      decide
    · rw [if_neg h2]
      cases hv : verify_rcpt p env (mk_session_address to_address to_flags) d with
      | some step =>
          simp only [hv]
          exact Or.inl (verify_rcpt_unchanged p env _ d step hv)
      | none =>
          simp only [hv]
          by_cases hc : (d.rcpt_to.any
              fun a => a == mk_session_address to_address to_flags) = true
          · rw [hc]
            exact Or.inr (Or.inl ⟨rfl, rfl⟩)
          · have hc2 : (d.rcpt_to.any
                fun a => a == mk_session_address to_address to_flags) = false := by
              simpa using hc
            rw [hc2]
            by_cases ha : env.is_allowed = true
            · rw [ha]
              exact Or.inr (Or.inr ⟨rfl, rfl, rfl⟩)
            · have ha2 : env.is_allowed = false := by simpa using ha
              rw [ha2]
              refine Or.inl ⟨by simp, ?_⟩
              intro w hw
              simp at hw
              subst hw
              decide

/-- C10 (amended): each handle_rcpt_to call grows the recipient list by at
    most one entry and preserves freedom from duplicates; a RCPT TO for an
    address already present, on a call that passes the MAIL-given,
    recipient-limit and address-verification checks, leaves the list
    unchanged while replying 250; and whenever a non-250 reply is written
    the list is unchanged (in particular the tentative push is popped when
    the rate limiter rejects). -/
theorem c10_rcpt_dedup (p : SessionParams) (env : RcptEnv) (d : SessionData)
    (to_address : String) (to_flags : Nat) :
    ((handle_rcpt_to p env d to_address to_flags).data.rcpt_to.length ≤
      d.rcpt_to.length + 1) ∧
    (no_dup_rcpt d.rcpt_to →
      no_dup_rcpt (handle_rcpt_to p env d to_address to_flags).data.rcpt_to) ∧
    (d.mail_from.isNone = false → d.rcpt_to.length < p.rcpt_max →
      verify_rcpt p env (mk_session_address to_address to_flags) d = none →
      (d.rcpt_to.any fun a => a == mk_session_address to_address to_flags) =
        true →
      (handle_rcpt_to p env d to_address to_flags).data.rcpt_to = d.rcpt_to ∧
      (handle_rcpt_to p env d to_address to_flags).writes =
        ["250 2.1.5 OK\r\n"]) ∧
    ((∃ w ∈ (handle_rcpt_to p env d to_address to_flags).writes,
        is_ok_reply w = false) →
      (handle_rcpt_to p env d to_address to_flags).data.rcpt_to = d.rcpt_to) := by
  have hshape := handle_rcpt_to_shape p env d to_address to_flags
  refine ⟨?_, ?_, ?_, ?_⟩
  · rcases hshape with ⟨he, _⟩ | ⟨he, _⟩ | ⟨he, _, _⟩ <;> rw [he] <;> simp
  · intro hnd
    rcases hshape with ⟨he, _⟩ | ⟨he, _⟩ | ⟨he, _, hc⟩
    · rw [he]; exact hnd
    · rw [he]; exact hnd
    · rw [he]
      unfold no_dup_rcpt at hnd ⊢
      rw [List.pairwise_append]
      refine ⟨hnd, by simp, ?_⟩
      intro a ha b hb
      simp at hb
      subst hb
      exact Bool.eq_false_iff.mpr (List.any_eq_false.mp hc a ha)
  · intro hmail hmax hv hc
    unfold handle_rcpt_to
    rw [if_neg (by simp [hmail]), if_neg (by omega)]
    simp only [hv, hc]
    exact ⟨rfl, rfl⟩
  · intro hex
    rcases hshape with ⟨he, _⟩ | ⟨he, hw⟩ | ⟨he, hw, _⟩
    · exact he
    · exact he
    · obtain ⟨w, hwm, hko⟩ := hex
      rw [hw] at hwm
      simp at hwm
      subst hwm
      exact absurd hko (by decide)

/-- Witness for C10 at a concrete input: with MAIL given, capacity left and
    verification passing, a duplicate RCPT TO leaves the single-entry list
    unchanged and replies 250. -/
theorem c10_witness :
    (handle_rcpt_to (SessionParams.mk 10 true 5 false)
        (RcptEnv.mk (fun _ => some true) (fun _ => some true) true)
        (SessionData.mk (some "s@x") [mk_session_address "U@d" 0] 0)
        "u@D" 0).data.rcpt_to = [mk_session_address "U@d" 0] ∧
    (handle_rcpt_to (SessionParams.mk 10 true 5 false)
        (RcptEnv.mk (fun _ => some true) (fun _ => some true) true)
        (SessionData.mk (some "s@x") [mk_session_address "U@d" 0] 0)
        "u@D" 0).writes = ["250 2.1.5 OK\r\n"] :=
  (c10_rcpt_dedup (SessionParams.mk 10 true 5 false)
    (RcptEnv.mk (fun _ => some true) (fun _ => some true) true)
    (SessionData.mk (some "s@x") [mk_session_address "U@d" 0] 0)
    "u@D" 0).2.2.1 rfl (by decide) rfl (by decide)

/-- C10 counterexample: with the recipient limit already reached, a RCPT TO
    for an address already present is answered with 451 Too many recipients,
    not 250, so the claim as stated fails (the list is still unchanged). -/
theorem c10_counterexample :
    ((SessionData.mk (some "s@x") [mk_session_address "u@d" 0] 0).rcpt_to.any
      fun a => a == mk_session_address "u@d" 0) = true ∧
    (handle_rcpt_to (SessionParams.mk 1 true 5 false)
        (RcptEnv.mk (fun _ => some true) (fun _ => some true) true)
        (SessionData.mk (some "s@x") [mk_session_address "u@d" 0] 0)
        "u@d" 0).writes = ["451 4.5.3 Too many recipients.\r\n"] ∧
    (handle_rcpt_to (SessionParams.mk 1 true 5 false)
        (RcptEnv.mk (fun _ => some true) (fun _ => some true) true)
        (SessionData.mk (some "s@x") [mk_session_address "u@d" 0] 0)
        "u@d" 0).data.rcpt_to = [mk_session_address "u@d" 0] := by
  refine ⟨by decide, rfl, rfl⟩

end StalwartSmtp
